import Mathlib

/-!
Verification of the replication topology management and failover engine of
mysql-utilities 1.6.4 (`mysql/utilities/common/topology.py`,
`replication.py`, `rpl_sync.py`).

The embedding is shallow: every remote server is represented by a record of
the point-in-time answers it gives to the queries the code issues (liveness,
GTID mode, executed GTID sets, replication-user lookups, ...).  The Python
control flow is translated function by function; Python exceptions become
`Except` errors, and the mutating remote commands issued by `switchover` and
`failover` are recorded in an event trace.
-/

deriving instance DecidableEq for Except

namespace Mut

/-- GTID mode of a server as reported by `supports_gtid()`:
`"ON"`, `"OFF"` or `"NO"` (GTID not supported by the server version). -/
inductive GtidSupport
  | on
  | off
  | no
deriving DecidableEq

/-- One per-UUID component of a GTID set (`uuid:interval[,interval...]`).
Transactions are identified by plain numbers; `txns` is the set of
transaction numbers of the originating server `uuid` contained in the
component. -/
structure GtidComp where
  uuid : Nat
  txns : List Nat
deriving DecidableEq

/-- A GTID set in MySQL canonical form: the list of per-UUID components in
the order the server prints them (sorted by UUID, one component per UUID). -/
abbrev GtidSet := List GtidComp

/-- The transactions a GTID set holds for a given server UUID
(the component lookup that `GTID_SUBTRACT` works per-UUID on). -/
def compTxns (s : GtidSet) (u : Nat) : List Nat :=
  match s.find? (fun c => c.uuid == u) with
  | some c => c.txns
  | none => []

/-- Membership of one transaction in a GTID set. -/
def inGtidB (s : GtidSet) (u t : Nat) : Bool :=
  (compTxns s u).contains t

/-- `GTID_SUBTRACT(a, b)`: per-UUID set difference, dropping components that
become empty, keeping the canonical component order of `a`. -/
def gtidSubtract (a b : GtidSet) : GtidSet :=
  a.filterMap fun c =>
    let rem := c.txns.filter (fun t => !(compTxns b c.uuid).contains t)
    if rem.isEmpty then none else some { uuid := c.uuid, txns := rem }

/-- A replica as seen through the oracle of its point-in-time query answers.
The same record doubles as a user-supplied candidate in the election
(`find_best_subordinate` builds the same dictionary shape for both). -/
structure SlaveRec where
  host : String
  port : Nat
  /-- the dictionary's `instance` entry is not `None` -/
  hasInstance : Bool := true
  /-- `is_alive()` -/
  alive : Bool := true
  /-- `Subordinate.connect()` succeeds (used when connecting a user candidate) -/
  connectOk : Bool := true
  /-- `is_configured_for_main(self.main)` -/
  configuredForMain : Bool := true
  /-- `supports_gtid()` -/
  supportsGtid : GtidSupport := .on
  /-- `Replication(main, subordinate).check_subordinate_delay()` result -/
  delayErrors : List String := []
  /-- `get_binlog_exceptions()`: `none` = no filter rows, otherwise the
  `(*_do_db, *_ignore_db)` pair of the single reported row -/
  filters : Option (String × String) := none
  /-- `binlog_enabled()` -/
  binlogEnabled : Bool := true
  /-- `get_rpl_user()` outcome: `none` = raises `UtilError`,
  `some u` = returns user `u` (possibly `None`) -/
  rplUserRes : Option (Option String) := some (some "rpl")
  /-- last entry of `get_rpl_users()` on the role-changed candidate:
  `none` = the list is empty (so `res[l - 1]` raises `IndexError`) -/
  rplUsersLast : Option String := some "rpl"
  /-- users `u` for which `check_rpl_user(u, host)` returns `[]` -/
  validRplUsers : List String := ["rpl"]
  /-- `get_executed_gtid_set()` -/
  executed : GtidSet := []
  /-- `get_main_uuid()` reported by the replica -/
  mainUuidReported : Nat := 0
  /-- server UUID (used when the replica is promoted) -/
  uuid : Nat := 0
  /-- `check_gtid_version()` succeeds -/
  gtidVersionOk : Bool := true
  /-- the replica reaches the primary position inside the switchover wait -/
  caughtUp : Bool := true
  /-- `get_sql_error()` returns a row (server is acting as a replica) -/
  actingAsSlave : Bool := true
  /-- SQL thread running with no error recorded -/
  sqlThreadOk : Bool := true
  /-- `_has_missing_transactions(candidate, slave)` oracle -/
  hasMissingTrans : Bool := false
  /-- `switch_main(...)` succeeds when issued during failover preparation -/
  switchMainOk : Bool := true
  /-- switchover candidate oracle: `_check_switchover_prerequisites` passes -/
  switchPrereqOk : Bool := true
  /-- switchover candidate oracle: `get_rpl_main_user()` on the role-changed
  candidate -/
  rplMainUser : Option String := some "rpl"
  /-- switchover candidate oracle: stored password hash matches the supplied
  `--rpl-user` password -/
  passwdMatches : Bool := true
  /-- the record was added by discovery -/
  discovered : Bool := false
deriving DecidableEq

/-- The current primary as seen through its query answers. -/
structure MainRec where
  host : String := "main"
  port : Nat := 3306
  uuid : Nat := 0
  supportsGtid : GtidSupport := .on
  gtidExecuted : GtidSet := []
  gtidVersionOk : Bool := true
deriving DecidableEq

/-- Topology-level options and primary-side oracles shared by the checks
(`self.force`, `self.pedantic`, `self.rpl_user`, ...). -/
structure Topo where
  /-- the primary's `get_binlog_exceptions()` answer -/
  mainFilters : Option (String × String) := none
  /-- the primary's `supports_gtid()` answer (never consulted by
  `_check_candidate_eligibility`, which derives `gtid_enabled` from the
  candidate instead) -/
  mainGtidMode : GtidSupport := .on
  force : Bool := false
  pedantic : Bool := false
  verbose : Bool := false
  /-- `--rpl-user`: `none` = not given, `some none` = given but ill-formatted
  (`parse_user_password` raises `FormatError`), `some (some u)` = parses to
  user `u` -/
  rplUser : Option (Option String) := none
  demote : Bool := false
  /-- `check_main_info_type("TABLE")` answer -/
  mainInfoTable : Bool := true
  beforeScript : Option String := none
  afterScript : Option String := none
  /-- the before script exceeds the configured `script_threshold` -/
  beforeFails : Bool := false
  /-- the after script exceeds the configured `script_threshold` -/
  afterFails : Bool := false
deriving DecidableEq

/-- Python exceptions surfacing from the embedded functions. -/
inductive PyError
  | utilError
  | indexError
  | typeError
  | attributeError
deriving DecidableEq

/-- `Topology._check_filters(main, subordinate)`: compares the number of
binlog exception rows and, when both sides have one, its `*_do_db` and
`*_ignore_db` columns. -/
def checkFilters (m s : Option (String × String)) : Bool :=
  match m, s with
  | none, none => true
  | some a, some b => a.1 == b.1 && a.2 == b.2
  | _, _ => false

/-- The replication-user resolution block of `_check_candidate_eligibility`
(topology.py:765-785): `get_rpl_user()` guarded by a `try` whose handler
re-raises when `--rpl-user` was not given, raises `UtilError` on a
`FormatError` from `parse_user_password`, and otherwise takes the last entry
of `get_rpl_users()` on the role-changed candidate (raising `IndexError`
when that list is empty). -/
def rplUserOutcome (top : Topo) (s : SlaveRec) : Except PyError (Option String) :=
  match s.rplUserRes with
  | some u => .ok u
  | none =>
    match top.rplUser with
    | none => .error .utilError
    | some none => .error .utilError
    | some (some _) =>
      match s.rplUsersLast with
      | none => .error .indexError
      | some u => .ok (some u)

/-- `Topology._check_candidate_eligibility(host, port, subordinate,
check_main, quiet)` (topology.py:669-798): the ordered short-circuit
pipeline CONNECTED, GTID, BEHIND, FILTERS, BINLOG, RPL_USER.  Note that the
source computes `gtid_enabled` from the *candidate*'s `supports_gtid()`. -/
def checkCandidateEligibility (top : Topo) (s : SlaveRec) (checkMain : Bool) :
    Except PyError (Bool × String × String) :=
  -- `gtid_enabled = subordinate.supports_gtid() == "ON"` is inlined at each
  -- of its uses (it is a pure point-in-time oracle value).
  if checkMain && !s.alive then
    .ok (false, "CONNECTED", "Connection to subordinate server lost.")
  else if checkMain && !s.configuredForMain then
    .ok (false, "CONNECTED", "Candidate is not connected to the correct main.")
  else if (s.supportsGtid == .on) && !(s.supportsGtid == .on) then
    .ok (false, "GTID", "Subordinate does not have GTID support enabled.")
  else if !(s.supportsGtid == .on) && checkMain && !(s.delayErrors == []) then
    .ok (false, "BEHIND", String.intercalate " " s.delayErrors)
  else if !top.force && checkMain && !checkFilters top.mainFilters s.filters then
    .ok (false, "FILTERS", "Main and subordinate filters differ.")
  else if !(s.supportsGtid == .on) && !s.binlogEnabled then
    .ok (false, "BINLOG", "Binary logging is not enabled on the candidate.")
  else
    match rplUserOutcome top s with
    | .error e => .error e
    | .ok none =>
      -- `user is None` is immediately a failure (or a warning under force)
      if !top.force then
        .ok (false, "RPL_USER", "Candidate subordinate is missing replication user.")
      else
        .ok (true, "", "")
    | .ok (some u) =>
      if !(s.validRplUsers.contains u) then
        if !top.force then
          .ok (false, "RPL_USER", "Candidate subordinate is missing replication user.")
        else
          .ok (true, "", "")
      else
        .ok (true, "", "")

/-- The first loop of `Topology.find_best_subordinate` (topology.py:2065-2080):
user-supplied candidates are connected (connection failure raises), dead ones
are skipped, and eligibility errors are *not* caught. -/
def candLoop (top : Topo) (checkMain : Bool) : List SlaveRec → Except PyError (Option SlaveRec)
  | [] => .ok none
  | c :: rest =>
    if !c.connectOk then .error .utilError
    else if !c.alive then candLoop top checkMain rest
    else
      match checkCandidateEligibility top c checkMain with
      | .error e => .error e
      | .ok r => if r.1 then .ok (some c) else candLoop top checkMain rest

/-- The fallback loop of `Topology.find_best_subordinate`
(topology.py:2090-2107): scans `self.subordinates`, skipping dead entries,
with eligibility wrapped in `try ... except UtilError` (so only `UtilError`
is swallowed; an `IndexError` still propagates). -/
def scanLoop (top : Topo) (checkMain : Bool) : List SlaveRec → Except PyError (Option SlaveRec)
  | [] => .ok none
  | s :: rest =>
    if !s.hasInstance || !s.alive then scanLoop top checkMain rest
    else
      match checkCandidateEligibility top s checkMain with
      | .error e =>
        -- `except UtilError` swallows exactly that class
        if e = .utilError then scanLoop top checkMain rest else .error e
      | .ok r => if r.1 then .ok (some s) else scanLoop top checkMain rest

/-- `Topology.find_best_subordinate(candidates, check_main, strict)`
(topology.py:2042-2109).  `candidates` defaults to `None` in the source; the
`for candidate in candidates` statement then raises `TypeError`. -/
def findBestSubordinate (top : Topo) (subs : List SlaveRec)
    (candidates : Option (List SlaveRec)) (checkMain strict : Bool) :
    Except PyError (Option SlaveRec) :=
  match candidates with
  | none => .error .typeError
  | some cands =>
    match candLoop top checkMain cands with
    | .error e => .error e
    | .ok (some c) => .ok (some c)
    | .ok none =>
      if strict then .ok none
      else scanLoop top checkMain subs

/-- One filtered pairwise difference inside
`Topology.find_errant_transactions` (topology.py:1128-1146): the other
replica evaluates `GTID_SUBTRACT('<tnx_set>', @@GLOBAL.GTID_EXECUTED)`, and
the single result string is kept (split into its per-UUID components) only
when it is non-empty and does not *start with* the primary UUID — the
`startswith` test looks at the first component only. -/
def errantPair (mainUuid : Nat) (mine other : GtidSet) : List GtidComp :=
  match gtidSubtract mine other with
  | [] => []
  | c :: rest => if c.uuid == mainUuid then [] else c :: rest

/-- The inner comparison loop of `find_errant_transactions`
(topology.py:1121-1149): every other reachable replica is compared in list
order; an empty filtered difference breaks the loop, a non-empty one is
unioned into the accumulated set. -/
def errantInnerLoop (mainUuid : Nat) (me : SlaveRec) :
    List SlaveRec → List GtidComp → List GtidComp
  | [], acc => acc
  | o :: rest, acc =>
    if o.host == me.host && o.port == me.port then
      errantInnerLoop mainUuid me rest acc
    else if !o.hasInstance || !o.alive then
      errantInnerLoop mainUuid me rest acc
    else
      if (errantPair mainUuid me.executed o.executed).isEmpty then acc
      else
        errantInnerLoop mainUuid me rest
          (acc ++ (errantPair mainUuid me.executed o.executed).filter
            (fun c => !acc.contains c))

/-- The errant set accumulated for one replica: the inner loop run with the
primary UUID the code would use for it. -/
def errantForSlave (mainRec : Option MainRec) (subs : List SlaveRec) (s : SlaveRec) :
    List GtidComp :=
  errantInnerLoop
    (match mainRec with
     | some m => m.uuid
     | none => s.mainUuidReported)
    s subs []

/-- `Topology.find_errant_transactions()` (topology.py:1088-1153), outer
loop: for each reachable replica, accumulate the filtered pairwise
differences against the other reachable replicas; report the replica when
the accumulated set is non-empty.  When no primary is available the primary
UUID is taken from the replica being checked. -/
def findErrantTransactions (mainRec : Option MainRec) (subs : List SlaveRec) :
    List (String × Nat × List GtidComp) :=
  subs.filterMap fun s =>
    if !s.hasInstance || !s.alive then none
    else if (errantForSlave mainRec subs s).isEmpty then none
    else some (s.host, s.port, errantForSlave mainRec subs s)

/-- The mutating remote commands issued by the protocols, recorded as an
event trace.  Read-only queries and waits are not events. -/
inductive Event
  | stopSlave (h : String) (p : Nat)
  | startSlave (h : String) (p : Nat)
  | changeMaster (h : String) (p : Nat)
  | roleSwap
  | setReadOnly (h : String) (p : Nat) (b : Bool)
  | lockTables (h : String) (p : Nat)
  | unlockTables (h : String) (p : Nat)
  | createRplUser (h : String) (p : Nat)
  | updateRplUser
  | resetAllCmd (h : String) (p : Nat)
  | runScript (s : String)
  | readRetrieved (h : String) (p : Nat)
  | commitCmd (h : String) (p : Nat)
  | stopSqlThread (h : String) (p : Nat)
  | computeSync
  | syncUntil (h : String) (p : Nat)
  | checksum (h : String) (p : Nat) (t : String)
deriving DecidableEq

/-- The registry state owned by `Topology`: the optional primary and the
ordered replica list. -/
structure TopState where
  main : Option MainRec
  subs : List SlaveRec
deriving DecidableEq

/-- The record appended to `self.subordinates` when the old primary is
demoted during switchover (topology.py:1935-1945); only host, port and
instance are stored, the rest are this server's own point-in-time answers. -/
def mainAsSlave (m : MainRec) : SlaveRec :=
  { host := m.host, port := m.port, uuid := m.uuid, supportsGtid := m.supportsGtid,
    executed := m.gtidExecuted, gtidVersionOk := m.gtidVersionOk }

/-- The promoted candidate viewed through the `Main` role
(`self._change_role(candidate, False)`). -/
def mainRecOfSlave (s : SlaveRec) : MainRec :=
  { host := s.host, port := s.port, uuid := s.uuid, supportsGtid := s.supportsGtid,
    gtidExecuted := s.executed, gtidVersionOk := s.gtidVersionOk }

/-- `Topology.remove_subordinate` (topology.py:1210-1222): pop the first
entry with a live instance matching host and port. -/
def removeSub : List SlaveRec → String → Nat → List SlaveRec
  | [], _, _ => []
  | s :: rest, h, p =>
    if s.hasInstance && s.host == h && s.port == p then rest
    else s :: removeSub rest h p

/-- `run_cmd_on_subordinates("stop")`: a `STOP SLAVE` is issued to every
replica with a live instance (dead ones only get a warning). -/
def stopEvents (subs : List SlaveRec) : List Event :=
  subs.filterMap fun s =>
    if s.hasInstance && s.alive then some (.stopSlave s.host s.port) else none

/-- `run_cmd_on_subordinates("start")`. -/
def startEvents (subs : List SlaveRec) : List Event :=
  subs.filterMap fun s =>
    if s.hasInstance && s.alive then some (.startSlave s.host s.port) else none

/-- The re-pointing loop: a `CHANGE MASTER` (or `switch_main`) is issued to
every surviving replica with a live instance. -/
def cmEvents (subs : List SlaveRec) : List Event :=
  subs.filterMap fun s =>
    if s.hasInstance && s.alive then some (.changeMaster s.host s.port) else none

/-- `Topology.run_script`: nothing runs when no script is configured. -/
def scriptEvents (s : Option String) : List Event :=
  match s with
  | none => []
  | some name => [.runScript name]

/-- `Topology._get_rpl_user(server)` (topology.py:573-594): the replication
user comes from the server's own records unless `--rpl-user` was given; an
ill-formatted `--rpl-user` raises `UtilError`. -/
def getRplUserTop (top : Topo) (s : SlaveRec) : Except PyError (Option String) :=
  match top.rplUser with
  | none =>
    match s.rplUserRes with
    | none => .error .utilError
    | some u => .ok u
  | some none => .error .utilError
  | some (some u) => .ok (some u)

/-- The mutating commands issued before the write fence: the optional
replication-user row update on the old primary (master-info FILE
repositories only), the `create_rpl_user` on the candidate and the before
script. -/
def switchoverPreTrace (top : Topo) (cand : SlaveRec) : List Event :=
  (if !top.mainInfoTable then [Event.updateRplUser] else []) ++
    [Event.createRplUser cand.host cand.port] ++ scriptEvents top.beforeScript

/-- The write fence acquired on the old primary (flush lock, read-only). -/
def fenceEvents (mn : MainRec) : List Event :=
  [Event.lockTables mn.host mn.port, Event.setReadOnly mn.host mn.port true]

/-- Releasing the write fence. -/
def unfenceEvents (mn : MainRec) : List Event :=
  [Event.setReadOnly mn.host mn.port false, Event.unlockTables mn.host mn.port]

/-- The optional `--demote-main` stop of the old primary. -/
def demoteEvents (top : Topo) (mn : MainRec) : List Event :=
  if top.demote then [Event.stopSlave mn.host mn.port] else []

/-- The replica list after the role swap: the demoted old primary appended
(when requested) and the promoted candidate removed. -/
def switchoverNewSubs (top : Topo) (st : TopState) (mn : MainRec) (cand : SlaveRec) :
    List SlaveRec :=
  removeSub (if top.demote then st.subs ++ [mainAsSlave mn] else st.subs)
    cand.host cand.port

/-- Every mutating command issued by switchover up to and including the role
swap. -/
def switchoverPreSwapTrace (top : Topo) (st : TopState) (mn : MainRec) (cand : SlaveRec) :
    List Event :=
  switchoverPreTrace top cand ++ fenceEvents mn ++ stopEvents st.subs ++
    unfenceEvents mn ++ demoteEvents top mn ++ [Event.roleSwap]

/-- Every mutating command issued by switchover after the role swap. -/
def switchoverPostSwapTrace (top : Topo) (st : TopState) (mn : MainRec) (cand : SlaveRec) :
    List Event :=
  [Event.resetAllCmd cand.host cand.port] ++
    cmEvents (switchoverNewSubs top st mn cand) ++
    startEvents (switchoverNewSubs top st mn cand) ++ scriptEvents top.afterScript

/-- The full switchover trace on the paths that reach the re-point loop. -/
def switchoverFullTrace (top : Topo) (st : TopState) (mn : MainRec) (cand : SlaveRec) :
    List Event :=
  switchoverPreSwapTrace top st mn cand ++ switchoverPostSwapTrace top st mn cand

/-- The registry state after the role swap. -/
def switchoverSwappedState (top : Topo) (st : TopState) (mn : MainRec) (cand : SlaveRec) :
    TopState :=
  { main := some (mainRecOfSlave cand), subs := switchoverNewSubs top st mn cand }

/-- `Topology.switchover(candidate)` (topology.py:1737-2012).  Returns the
registry state after the run, the trace of mutating commands issued, and the
Python outcome (`.ok none` models the early bare `return` statements). -/
def switchover (top : Topo) (st : TopState) (cand : SlaveRec) :
    TopState × List Event × Except PyError (Option Bool) :=
  match st.main with
  | none => (st, [], .error .attributeError)
  | some mn =>
    if !cand.connectOk then (st, [], .error .utilError)
    else if !cand.switchPrereqOk && !top.force then (st, [], .ok none)
    else if !top.force &&
        !(st.subs.all fun s => !(s.hasInstance && s.alive) || s.configuredForMain) then
      (st, [], .error .utilError)
    else
      match getRplUserTop
          { top with rplUser :=
              if top.verbose && !(top.rplUser == none) && top.mainInfoTable then none
              else top.rplUser }
          cand with
      | .error e => (st, [], .error e)
      | .ok user =>
        if !top.mainInfoTable && !top.force && !(user == cand.rplMainUser) then
          (st, [], .ok none)
        else if !top.mainInfoTable && !top.force && !cand.passwdMatches then
          (st, [], .ok none)
        else if !(top.beforeScript == none) && top.beforeFails then
          (st, switchoverPreTrace top cand, .error .utilError)
        else if !top.force &&
            !(st.subs.all fun s => !(s.hasInstance && s.alive) || s.caughtUp) then
          (st, switchoverPreTrace top cand ++ fenceEvents mn, .error .utilError)
        else if !(top.afterScript == none) && top.afterFails then
          (switchoverSwappedState top st mn cand, switchoverFullTrace top st mn cand,
           .error .utilError)
        else
          (switchoverSwappedState top st mn cand, switchoverFullTrace top st mn cand,
           .ok (some ((switchoverNewSubs top st mn cand).all fun s =>
             !(s.hasInstance && s.alive) || s.sqlThreadOk)))

/-- `Topology._check_subordinates_status(stop_on_error)`
(topology.py:974-1086): each finding (dead replica, not acting as a replica,
SQL thread problem) raises when `(stop_on_error and not force) or
(not stop_on_error and pedantic)`, otherwise only warns. -/
def checkSubsStatusRaises (top : Topo) (stopOnError : Bool) (subs : List SlaveRec) : Bool :=
  ((stopOnError && !top.force) || (!stopOnError && top.pedantic)) &&
    subs.any fun s => !(s.hasInstance && s.alive) || !s.actingAsSlave || !s.sqlThreadOk

/-- The per-replica body of `Topology._prepare_candidate_for_failover`
(topology.py:866-973): drain the replica's relay log, and when it holds
transactions missing from the candidate, temporarily attach the candidate to
it; a failing `switch_main` raises. -/
def prepareLoop (cand : SlaveRec) : List SlaveRec → List Event → List Event × Except PyError Unit
  | [], tr => (tr, .ok ())
  | s :: rest, tr =>
    if !s.hasInstance || !s.alive then prepareLoop cand rest tr
    else
      let tr1 := tr ++ [Event.readRetrieved s.host s.port]
      if s.host == cand.host && s.port == cand.port then prepareLoop cand rest tr1
      else if !s.hasMissingTrans then prepareLoop cand rest tr1
      else
        let tr2 := tr1 ++ [Event.stopSlave cand.host cand.port,
                           Event.lockTables s.host s.port,
                           Event.setReadOnly s.host s.port true,
                           Event.changeMaster cand.host cand.port]
        if !s.switchMainOk then (tr2, .error .utilError)
        else
          prepareLoop cand rest (tr2 ++
            [Event.setReadOnly s.host s.port false, Event.unlockTables s.host s.port,
             Event.startSlave cand.host cand.port, Event.commitCmd cand.host cand.port,
             Event.stopSlave cand.host cand.port])

/-- `Topology._prepare_candidate_for_failover` entry: refuses a candidate
without GTID mode ON, then walks the replica list. -/
def prepareCandidate (cand : SlaveRec) (subs : List SlaveRec) :
    List Event × Except PyError Unit :=
  if !(cand.supportsGtid == .on) then ([], .error .utilError)
  else prepareLoop cand subs []

/-- `Topology.failover(candidates, strict, stop_on_error)`
(topology.py:2111-2265). -/
def failover (top : Topo) (st : TopState) (cands : Option (List SlaveRec))
    (strict stopOnError : Bool) : TopState × List Event × Except PyError (Option Bool) :=
  match findBestSubordinate top st.subs cands false strict with
  | .error e => (st, [], .error e)
  | .ok none => (st, [], .error .utilError)
  | .ok (some newMain) =>
    if !(newMain.supportsGtid == .on) then (st, [], .error .utilError)
    else if !(st.subs.all fun s =>
        !(s.hasInstance && s.alive) || s.supportsGtid == newMain.supportsGtid) then
      (st, [], .error .utilError)
    else if !newMain.gtidVersionOk then (st, [], .error .utilError)
    else if !(st.subs.all fun s => !(s.hasInstance && s.alive) || s.gtidVersionOk) then
      (st, [], .error .utilError)
    else
      match getRplUserTop top newMain with
      | .error e => (st, [], .error e)
      | .ok _user =>
        if checkSubsStatusRaises top stopOnError st.subs then (st, [], .error .utilError)
        else
          match prepareCandidate newMain st.subs with
          | (tr, .error e) => (st, tr, .error e)
          | (tr, .ok _) =>
            let newMainRec := mainRecOfSlave newMain
            let t1 := tr ++ [Event.createRplUser newMain.host newMain.port] ++
              scriptEvents top.beforeScript
            if !(top.beforeScript == none) && top.beforeFails then
              ({ st with main := some newMainRec }, t1, .error .utilError)
            else
              let t2 := t1 ++ stopEvents st.subs
              let subs1 := removeSub st.subs newMain.host newMain.port
              let st1 : TopState := { main := some newMainRec, subs := subs1 }
              let t3 := t2 ++ cmEvents subs1 ++
                [Event.stopSlave newMain.host newMain.port,
                 Event.resetAllCmd newMain.host newMain.port] ++
                startEvents subs1 ++ scriptEvents top.afterScript
              if !(top.afterScript == none) && top.afterFails then (st1, t3, .error .utilError)
              else
                (st1, t3,
                 .ok (some (subs1.all fun s => !(s.hasInstance && s.alive) || s.sqlThreadOk)))

/-- Membership of a transaction in any component of a GTID set (used to
state properties of non-canonical sets, where a UUID may repeat). -/
def inAnyComp (s : GtidSet) (u t : Nat) : Bool :=
  s.any fun c => c.uuid == u && c.txns.contains t

/-- Modelled from the spec: `get_last_server_gtid` lives in
`mysql/utilities/common/gtid.py`, which is not part of the sources; per the
spec it returns "the last GTID emitted by the primary's own UUID", i.e. the
highest transaction number the set holds for that UUID. -/
def getLastServerGtid (s : GtidSet) (u : Nat) : Option (Nat × Nat) :=
  match compTxns s u with
  | [] => none
  | t :: ts => some (u, ts.foldl Nat.max t)

/-- Modelled from the spec: `gtid_set_union` (also from the missing
`gtid.py`) joins two transaction sets of the same UUID. -/
def gtidTxnsUnion (a b : List Nat) : List Nat :=
  a ++ b.filter (fun t => !a.contains t)

/-- The dictionary update of `_compute_sync_point` (rpl_sync.py:670-680):
insert an unknown UUID, union into a known one. -/
def updateByUuid : List GtidComp → GtidComp → List GtidComp
  | [], c => [c]
  | d :: rest, c =>
    if d.uuid == c.uuid then
      { uuid := d.uuid, txns := gtidTxnsUnion d.txns c.txns } :: rest
    else d :: updateByUuid rest c

/-- `RPLSynchronizer._compute_sync_point(active_subordinates, main_uuid)`
(rpl_sync.py:636-684): with a primary, the last GTID of the primary UUID
from the primary's executed set; without one, the per-UUID union of the
active replicas' executed sets. -/
def computeSyncPoint (mainRec : Option MainRec) (activeSlaves : List SlaveRec)
    (mainUuidParam : Option Nat) : GtidSet :=
  match mainRec with
  | some m =>
    let u := mainUuidParam.getD m.uuid
    match getLastServerGtid m.gtidExecuted u with
    | some (uu, t) => [{ uuid := uu, txns := [t] }]
    | none => []
  | none =>
    activeSlaves.foldl (fun acc s => s.executed.foldl updateByUuid acc) []

/-- The synchronization skeleton of `RPLSynchronizer._check_table_data_sync`
(rpl_sync.py:788-846): with a primary, the target table is read-locked on the
primary, the sync point computed under the lock, active replicas set to stop
at it, the base checksum taken, and the table unlocked in the `finally`;
without a primary, active replicas are stopped, the union sync point
computed, and the replicas restarted until the sync point. -/
def checkTableDataSync (mainRec : Option MainRec) (activeSlaves : List SlaveRec)
    (table : String) : List Event × GtidSet :=
  match mainRec with
  | some m =>
    let sync := computeSyncPoint (some m) activeSlaves (some m.uuid)
    ([Event.lockTables m.host m.port, Event.computeSync] ++
       (if activeSlaves.isEmpty then []
        else activeSlaves.map fun s => Event.syncUntil s.host s.port) ++
       [Event.checksum m.host m.port table, Event.unlockTables m.host m.port],
     sync)
  | none =>
    if activeSlaves.isEmpty then ([], [])
    else
      let sync := computeSyncPoint none activeSlaves none
      ((activeSlaves.map fun s => Event.stopSqlThread s.host s.port) ++
         [Event.computeSync] ++ (activeSlaves.map fun s => Event.syncUntil s.host s.port),
       sync)

/-- One row of the primary's `SHOW SLAVE HOSTS` answer, together with the
outcome of `_check_discovered_subordinate` on it (`false` = that check raises
`UtilError` because the host cannot be connected or is misconfigured). -/
structure AdvRow where
  serverId : Nat
  hostName : String
  port : Nat
  checkOk : Bool := true
deriving DecidableEq

/-- Python tuple ordering on the leading `(Server_id, Host, Port)` columns,
used by `res.sort()`. -/
def rowLe (a b : AdvRow) : Bool :=
  a.serverId < b.serverId ||
    (a.serverId == b.serverId &&
      (decide (a.hostName < b.hostName) ||
        (a.hostName == b.hostName && a.port ≤ b.port)))

/-- Stable insertion used to model `res.sort()`. -/
def insertRow (r : AdvRow) : List AdvRow → List AdvRow
  | [] => [r]
  | x :: xs => if rowLe x r then x :: insertRow r xs else r :: x :: xs

/-- `res.sort()` on the advertised rows. -/
def sortRows (l : List AdvRow) : List AdvRow :=
  l.foldr insertRow []

/-- `_get_subordinate_info(host, port)` (replication.py:973-983): the
`host:port` string, or `unknown host:port` when the hostname is empty.
(`format_IPv6` is the identity on hostnames without a colon and is not
modelled.) -/
def mkInfo (r : AdvRow) : String :=
  (if r.hostName.length > 0 then r.hostName else "unknown host") ++ ":" ++ toString r.port

/-- The row loop of `Main.get_subordinates` (replication.py:993-1018):
result accumulator, empty-hostname findings and connection-error findings.
An empty hostname records the row and *breaks* the loop. -/
def getSubsLoop : List AdvRow → List String × Bool × List String
  | [] => ([], false, [])
  | r :: rest =>
    if r.hostName == "" then ([], true, [])
    else if r.checkOk then
      (mkInfo r :: (getSubsLoop rest).1, (getSubsLoop rest).2.1, (getSubsLoop rest).2.2)
    else
      ((getSubsLoop rest).1, (getSubsLoop rest).2.1, mkInfo r :: (getSubsLoop rest).2.2)

/-- `Main.get_subordinates(user, password)` (replication.py:962-1034):
sorts the advertised rows, walks them, and returns the admitted `host:port`
list together with the two warning conditions it prints
(unregistered-hostname rows seen, connection/configuration errors seen). -/
def getSubordinates (rows : List AdvRow) : List String × Bool × Bool :=
  if rows.isEmpty then ([], false, false)
  else
    let out := getSubsLoop (sortRows rows)
    (out.1, out.2.1, !out.2.2.isEmpty)

/-! ### Helper lemmas and fixtures -/

/-- A defaults-only option set: no `--force`, no `--rpl-user`, no filters. -/
def topDefault : Topo := {}

/-- The replication-user block can only raise `UtilError` or `IndexError`. -/
theorem rplUserOutcome_error_cases (top : Topo) (s : SlaveRec) (e : PyError)
    (h : rplUserOutcome top s = .error e) : e = .utilError ∨ e = .indexError := by
  unfold rplUserOutcome at h
  repeat' split at h
  any_goals cases h
  all_goals simp

/-- `_check_candidate_eligibility` can only raise `UtilError` or
`IndexError` (both from the replication-user block). -/
theorem eligibility_error_cases (top : Topo) (s : SlaveRec) (checkMain : Bool)
    (e : PyError) (h : checkCandidateEligibility top s checkMain = .error e) :
    e = .utilError ∨ e = .indexError := by
  unfold checkCandidateEligibility at h
  repeat' split at h
  any_goals cases h
  all_goals exact rplUserOutcome_error_cases top s _ (by assumption)

/-! ### C10 -/

/-- C10: calling the best-replica election with its default `candidates`
argument (`None`) raises a `TypeError` from iterating over `None` before any
eligibility check runs; the fallback scan of the replica set (and every
other outcome) is reachable only when an actual list is supplied. -/
theorem find_best_none_candidates_type_error (top : Topo) (subs : List SlaveRec)
    (checkMain strict : Bool) :
    findBestSubordinate top subs none checkMain strict = .error .typeError := rfl

/-! ### C2 -/

/-- A candidate that passes every check the code actually applies, but has
GTID mode OFF while the primary's is ON. -/
def candV2 : SlaveRec := { host := "cand", port := 3307, supportsGtid := .off }

/-- C2 (code bug): the eligibility pipeline never enforces GTID parity with
the primary, because `gtid_enabled` is computed from the *candidate*'s own
`supports_gtid()` (topology.py:699) and the GTID step then re-tests the same
value (topology.py:722-731).  With the primary at GTID mode ON and the
candidate at OFF, the check reports the candidate eligible instead of
failing with check name GTID. -/
theorem eligibility_gtid_parity_not_enforced :
    topDefault.mainGtidMode = GtidSupport.on ∧
    candV2.supportsGtid = GtidSupport.off ∧
    checkCandidateEligibility topDefault candV2 true = .ok (true, "", "") :=
  ⟨rfl, rfl, rfl⟩

/-! ### C6 -/

/-- A candidate whose replication user cannot be determined remotely
(`get_rpl_user()` raises `UtilError`). -/
def candV6 : SlaveRec := { host := "cand", port := 3310, rplUserRes := none }

/-- C6 counterexample: with no `--rpl-user` option set, an eligibility probe
of a candidate whose `get_rpl_user()` raises terminates with the re-raised
`UtilError` (topology.py:766-769) instead of returning a tagged result. -/
theorem eligibility_raises_without_rpl_user_option :
    candV6.rplUserRes = none ∧ topDefault.rplUser = none ∧
    checkCandidateEligibility topDefault candV6 true = .error .utilError :=
  ⟨rfl, rfl, rfl⟩

/-- C6 amended: the eligibility check returns a tagged result whenever the
candidate's replication user can be determined remotely (`get_rpl_user()`
does not raise); only the remote-user failure paths can escape as
exceptions. -/
theorem eligibility_tagged_when_rpl_user_known (top : Topo) (s : SlaveRec)
    (checkMain : Bool) (u : Option String) (h : s.rplUserRes = some u) :
    ∃ r, checkCandidateEligibility top s checkMain = .ok r := by
  have hout : rplUserOutcome top s = .ok u := by
    unfold rplUserOutcome
    rw [h]
  unfold checkCandidateEligibility
  rw [hout]
  repeat' split
  all_goals first
    | exact ⟨_, rfl⟩
    | simp_all

/-- Witness for the C6 amended theorem at a concrete candidate. -/
theorem eligibility_tagged_when_rpl_user_known_witness :
    candV2.rplUserRes = some (some "rpl") ∧
    ∃ r, checkCandidateEligibility topDefault candV2 true = .ok r :=
  ⟨rfl, eligibility_tagged_when_rpl_user_known topDefault candV2 true (some "rpl") rfl⟩

/-! ### C7 -/

/-- C7 counterexample: a user-supplied candidate whose eligibility
evaluation raises (`get_rpl_user()` fails and no `--rpl-user` is set) makes
`find_best_subordinate` propagate the error to its caller — the candidates
loop (topology.py:2065-2080) has no `try`/`except`, unlike the fallback
scan. -/
theorem find_best_propagates_candidate_error :
    findBestSubordinate topDefault [] (some [candV6]) true false =
      .error .utilError :=
  rfl

/-- The fallback scan never stops on a `UtilError` from an eligibility
probe: it skips the replica and keeps scanning. -/
theorem scanLoop_ok_of_no_index_error (top : Topo) (checkMain : Bool) :
    ∀ (subs : List SlaveRec),
      (∀ s ∈ subs, checkCandidateEligibility top s checkMain ≠ .error .indexError) →
      ∃ r, scanLoop top checkMain subs = .ok r := by
  intro subs
  induction subs with
  | nil => intro _; exact ⟨none, rfl⟩
  | cons s rest ih =>
    intro h
    have hrest : ∀ x ∈ rest, checkCandidateEligibility top x checkMain ≠ .error .indexError :=
      fun x hx => h x (List.mem_cons_of_mem s hx)
    unfold scanLoop
    split
    · exact ih hrest
    · split
      · rename_i e heq
        split
        · exact ih hrest
        · rename_i hne
          exfalso
          rcases eligibility_error_cases top s checkMain e heq with h1 | h1
          · exact hne h1
          · subst h1
            exact h s (List.mem_cons_self s rest) heq
      · split
        · exact ⟨_, rfl⟩
        · exact ih hrest

/-- C7 amended: errors are swallowed only in the fallback scan of the
topology's replica set — with an empty candidate list the election always
returns normally (provided no probe raises the uncaught `IndexError`),
skipping replicas whose probes raise `UtilError`; errors raised while
evaluating user-supplied candidates propagate. -/
theorem find_best_scan_swallows_util_errors (top : Topo) (subs : List SlaveRec)
    (checkMain strict : Bool)
    (h : ∀ s ∈ subs, checkCandidateEligibility top s checkMain ≠ .error .indexError) :
    ∃ r, findBestSubordinate top subs (some []) checkMain strict = .ok r := by
  have hred : findBestSubordinate top subs (some []) checkMain strict =
      if strict then .ok none else scanLoop top checkMain subs := rfl
  rw [hred]
  split
  · exact ⟨none, rfl⟩
  · exact scanLoop_ok_of_no_index_error top checkMain subs h

/-- Witness for the C7 amended theorem: the scan skips a replica whose probe
raises `UtilError` and still returns. -/
theorem find_best_scan_swallows_util_errors_witness :
    (∀ s ∈ [candV6], checkCandidateEligibility topDefault s true ≠ .error .indexError) ∧
    ∃ r, findBestSubordinate topDefault [candV6] (some []) true false = .ok r :=
  ⟨by decide,
   find_best_scan_swallows_util_errors topDefault [candV6] true false (by decide)⟩

/-! ### C8 -/

set_option maxHeartbeats 2000000 in
/-- C8: the eligibility check is monotone in `force`: a candidate found
eligible with `force` unset is still eligible with `force` set (and all
other inputs unchanged); and a failure that `force` can lift is necessarily
a FILTERS or RPL_USER failure — every other failure is reproduced verbatim
with `force` set. -/
theorem eligibility_force_monotonic (top : Topo) (s : SlaveRec) (checkMain : Bool) :
    (checkCandidateEligibility { top with force := false } s checkMain = .ok (true, "", "") →
      checkCandidateEligibility { top with force := true } s checkMain = .ok (true, "", "")) ∧
    (∀ c m, checkCandidateEligibility { top with force := false } s checkMain = .ok (false, c, m) →
      ¬c = "FILTERS" → ¬c = "RPL_USER" →
      checkCandidateEligibility { top with force := true } s checkMain = .ok (false, c, m)) := by
  have hro : rplUserOutcome { top with force := false } s = rplUserOutcome top s := rfl
  have hro2 : rplUserOutcome { top with force := true } s = rplUserOutcome top s := rfl
  constructor
  · intro h
    unfold checkCandidateEligibility at h ⊢
    rw [hro] at h
    rw [hro2]
    repeat' split at h <;> repeat' split
    all_goals simp_all
  · intro c m h hc1 hc2
    unfold checkCandidateEligibility at h ⊢
    rw [hro] at h
    rw [hro2]
    repeat' split at h <;> repeat' split
    all_goals simp_all

/-- Witness for C8 at a concrete eligible candidate. -/
theorem eligibility_force_monotonic_witness :
    checkCandidateEligibility { topDefault with force := false } candV2 true = .ok (true, "", "") ∧
    checkCandidateEligibility { topDefault with force := true } candV2 true = .ok (true, "", "") :=
  ⟨rfl, (eligibility_force_monotonic topDefault candV2 true).1 rfl⟩

/-! ### C1 -/

/-- Every transaction of a component of `GTID_SUBTRACT(a, b)` lies in `a`
(in the component it was filtered from) and not in `b`'s component for the
same UUID. -/
theorem gtidSubtract_mem (a b : GtidSet) (c : GtidComp) (hc : c ∈ gtidSubtract a b) :
    ∀ t ∈ c.txns, inAnyComp a c.uuid t = true ∧ inGtidB b c.uuid t = false := by
  unfold gtidSubtract at hc
  rw [List.mem_filterMap] at hc
  obtain ⟨d, hd, heq⟩ := hc
  dsimp only at heq
  split at heq
  · cases heq
  · cases heq
    intro t ht
    rw [List.mem_filter] at ht
    obtain ⟨htd, htb⟩ := ht
    constructor
    · unfold inAnyComp
      rw [List.any_eq_true]
      exact ⟨d, hd, by simp [htd]⟩
    · unfold inGtidB
      simpa using htb

/-- Every transaction of a component kept by the primary-UUID filter lies in
`mine` and not in `other`. -/
theorem errantPair_mem (mu : Nat) (mine other : GtidSet) (c : GtidComp)
    (hc : c ∈ errantPair mu mine other) :
    ∀ t ∈ c.txns, inAnyComp mine c.uuid t = true ∧ inGtidB other c.uuid t = false := by
  unfold errantPair at hc
  have hsub : c ∈ gtidSubtract mine other := by
    split at hc
    · cases hc
    · rename_i c0 rest hs
      split at hc
      · cases hc
      · rw [hs]
        exact hc
  exact gtidSubtract_mem mine other c hsub

/-- Every component accumulated by the inner comparison loop either was in
the accumulator already or comes from the filtered difference against some
other reachable replica in the remaining list. -/
theorem errantInnerLoop_mem (mu : Nat) (me : SlaveRec) :
    ∀ (others : List SlaveRec) (acc : List GtidComp) (c : GtidComp),
      c ∈ errantInnerLoop mu me others acc →
      c ∈ acc ∨ ∃ o ∈ others, ¬(o.host = me.host ∧ o.port = me.port) ∧
        o.hasInstance = true ∧ o.alive = true ∧
        c ∈ errantPair mu me.executed o.executed := by
  intro others
  induction others with
  | nil => intro acc c hc; exact Or.inl hc
  | cons o rest ih =>
    intro acc c hc
    unfold errantInnerLoop at hc
    split at hc
    · rcases ih acc c hc with h | ⟨o', ho', hrest⟩
      · exact Or.inl h
      · exact Or.inr ⟨o', List.mem_cons_of_mem o ho', hrest⟩
    · split at hc
      · rcases ih acc c hc with h | ⟨o', ho', hrest⟩
        · exact Or.inl h
        · exact Or.inr ⟨o', List.mem_cons_of_mem o ho', hrest⟩
      · rename_i hself hdead
        simp at hdead
        split at hc
        · exact Or.inl hc
        · rcases ih _ c hc with h | ⟨o', ho', hrest⟩
          · rw [List.mem_append] at h
            rcases h with h | h
            · exact Or.inl h
            · rw [List.mem_filter] at h
              refine Or.inr ⟨o, List.mem_cons_self o rest, ?_, hdead.1, hdead.2, h.1⟩
              intro hcontra
              exact hself (by simp [hcontra.1, hcontra.2])
          · exact Or.inr ⟨o', List.mem_cons_of_mem o ho', hrest⟩

/-- The primary for the C1 counterexample. -/
def mainX : MainRec := { uuid := 5 }

/-- Replica whose set contains a foreign transaction `(1, 1)` and a
primary-originated transaction `(5, 9)`. -/
def slaveX1 : SlaveRec :=
  { host := "r1", port := 1,
    executed := [{ uuid := 1, txns := [1] }, { uuid := 5, txns := [9] }] }

/-- Replica missing both transactions. -/
def slaveX2 : SlaveRec := { host := "r2", port := 2, executed := [] }

/-- Replica holding exactly the same set as `slaveX1`. -/
def slaveX3 : SlaveRec :=
  { host := "r3", port := 3,
    executed := [{ uuid := 1, txns := [1] }, { uuid := 5, txns := [9] }] }

/-- The replica list for the C1 counterexample. -/
def subsX : List SlaveRec := [slaveX1, slaveX2, slaveX3]

/-- C1 counterexample: on this topology the code reports for replica `r1`
both the transaction `(1, 1)` — which is present on the other reachable
replica `r3` — and the transaction `(5, 9)` — which originates from the
primary's own UUID `5`.  The spec's errant definition admits neither, so
`find_errant_transactions` does not return "exactly the transactions that
satisfy the spec's definition of errant". -/
theorem errant_reports_txn_present_elsewhere :
    findErrantTransactions (some mainX) subsX =
      [("r1", 1, [{ uuid := 1, txns := [1] }, { uuid := 5, txns := [9] }])] ∧
    slaveX3 ∈ subsX ∧ slaveX3.hasInstance = true ∧ slaveX3.alive = true ∧
    ¬(slaveX3.host = "r1" ∧ slaveX3.port = 1) ∧
    inAnyComp slaveX3.executed 1 1 = true ∧
    inAnyComp slaveX3.executed 5 9 = true ∧
    ({ uuid := 5, txns := [9] } : GtidComp).uuid = mainX.uuid := by
  decide

/-- C1 amended: every transaction reported for a replica appears in that
replica's executed GTID set and is absent from *at least one* other
currently-reachable replica (the one whose pairwise difference produced it)
— but not necessarily from all of them, and its originating UUID may equal
the primary's (the `startswith` filter only inspects the first component of
a difference). -/
theorem errant_reported_txn_sound (mainRec : Option MainRec) (subs : List SlaveRec)
    (e : String × Nat × List GtidComp) (he : e ∈ findErrantTransactions mainRec subs)
    (c : GtidComp) (hc : c ∈ e.2.2) (t : Nat) (ht : t ∈ c.txns) :
    ∃ s ∈ subs, e.1 = s.host ∧ e.2.1 = s.port ∧ s.hasInstance = true ∧ s.alive = true ∧
      inAnyComp s.executed c.uuid t = true ∧
      ∃ o ∈ subs, ¬(o.host = s.host ∧ o.port = s.port) ∧ o.hasInstance = true ∧
        o.alive = true ∧ inGtidB o.executed c.uuid t = false := by
  unfold findErrantTransactions at he
  rw [List.mem_filterMap] at he
  obtain ⟨s, hs, heq⟩ := he
  split at heq
  · cases heq
  · rename_i hlive
    split at heq
    · cases heq
    · cases heq
      simp at hlive
      have hinst : s.hasInstance = true := hlive.1
      have halive : s.alive = true := hlive.2
      rcases errantInnerLoop_mem _ s subs [] c hc with h | ⟨o, ho, hne, hoinst, hoalive, hpair⟩
      · cases h
      · obtain ⟨hmine, hother⟩ := errantPair_mem _ s.executed o.executed c hpair t ht
        exact ⟨s, hs, rfl, rfl, hinst, halive, hmine,
          o, ho, fun hcontra => hne ⟨hcontra.1.symm ▸ rfl, hcontra.2.symm ▸ rfl⟩,
          hoinst, hoalive, hother⟩

/-- The fixtures for the C1 witness: a two-replica topology with one
genuinely errant transaction on replica `a`. -/
def mainW1 : MainRec := { uuid := 0 }

/-- Replica holding the errant transaction `(1, 1)`. -/
def slaveWA : SlaveRec := { host := "a", port := 1, executed := [{ uuid := 1, txns := [1] }] }

/-- Replica without it. -/
def slaveWB : SlaveRec := { host := "b", port := 2, executed := [] }

/-- The topology's replica list for the C1 witness. -/
def subsW1 : List SlaveRec := [slaveWA, slaveWB]

/-- The entry the code reports for replica `a`. -/
def entryW1 : String × Nat × List GtidComp := ("a", 1, [{ uuid := 1, txns := [1] }])

/-- The reported component. -/
def compW1 : GtidComp := { uuid := 1, txns := [1] }

/-- Witness for the C1 amended theorem on a two-replica topology with one
genuinely errant transaction. -/
theorem errant_reported_txn_sound_witness :
    entryW1 ∈ findErrantTransactions (some mainW1) subsW1 ∧
    ∃ s ∈ subsW1, entryW1.1 = s.host ∧ entryW1.2.1 = s.port ∧
      s.hasInstance = true ∧ s.alive = true ∧
      inAnyComp s.executed compW1.uuid 1 = true ∧
      ∃ o ∈ subsW1, ¬(o.host = s.host ∧ o.port = s.port) ∧ o.hasInstance = true ∧
        o.alive = true ∧ inGtidB o.executed compW1.uuid 1 = false :=
  ⟨by decide,
   errant_reported_txn_sound (some mainW1) subsW1 entryW1 (by decide)
     compW1 (by decide) 1 (by decide)⟩

/-! ### C4 -/

/-- C4: if the elected failover candidate does not have GTID mode ON, or any
reachable replica's GTID mode differs from ON, `failover` raises before any
mutating command is issued and leaves the registry state unchanged — there
is no non-GTID failover path. -/
theorem failover_gtid_precondition_aborts_unmutated (top : Topo) (st : TopState)
    (cands : Option (List SlaveRec)) (strict stopOnError : Bool) (c : SlaveRec)
    (h1 : findBestSubordinate top st.subs cands false strict = .ok (some c))
    (h2 : ¬c.supportsGtid = GtidSupport.on ∨
      ∃ s ∈ st.subs, s.hasInstance = true ∧ s.alive = true ∧
        ¬s.supportsGtid = GtidSupport.on) :
    failover top st cands strict stopOnError = (st, [], .error .utilError) := by
  unfold failover
  rw [h1]
  dsimp only
  by_cases hg : c.supportsGtid = GtidSupport.on
  · rcases h2 with h2 | ⟨s, hs, hinst, halive, hbad⟩
    · exact absurd hg h2
    · rw [hg]
      have hall : (st.subs.all fun s =>
          !(s.hasInstance && s.alive) || s.supportsGtid == GtidSupport.on) = false := by
        rw [Bool.eq_false_iff]
        intro hA
        rw [List.all_eq_true] at hA
        have hin := hA s hs
        rw [hinst, halive] at hin
        simp at hin
        exact hbad hin
      simp only [beq_self_eq_true, Bool.not_true, hall, Bool.not_false]
      simp
  · have hcf : (c.supportsGtid == GtidSupport.on) = false := by
      simp [hg]
    simp only [hcf, Bool.not_false]
    simp

/-- Registry fixture for the C4 witness. -/
def stW4 : TopState := { main := some { host := "m" }, subs := [] }

/-- A candidate that is electable with `check_main=False` (binary logging on,
replication user present) yet has GTID mode OFF. -/
def candW4 : SlaveRec := { host := "c", port := 9, supportsGtid := .off }

/-- Witness for C4: the GTID-OFF elected candidate aborts the failover with
no command issued. -/
theorem failover_gtid_precondition_aborts_unmutated_witness :
    findBestSubordinate topDefault stW4.subs (some [candW4]) false false =
      .ok (some candW4) ∧
    failover topDefault stW4 (some [candW4]) false false =
      (stW4, [], .error .utilError) :=
  ⟨by decide,
   failover_gtid_precondition_aborts_unmutated topDefault stW4 (some [candW4])
     false false candW4 (by decide) (Or.inl (by decide))⟩

/-! ### C3 -/

/-- Recognizer for re-point commands. -/
def isChangeMasterEv : Event → Bool
  | .changeMaster _ _ => true
  | _ => false

/-- Recognizer for `STOP SLAVE` commands. -/
def isStopSlaveEv : Event → Bool
  | .stopSlave _ _ => true
  | _ => false

/-- No element of `scriptEvents` is a re-point or a stop. -/
theorem scriptEvents_no_cm_no_stop (so : Option String) :
    ∀ e ∈ scriptEvents so, isChangeMasterEv e = false ∧ isStopSlaveEv e = false := by
  intro e he
  unfold scriptEvents at he
  split at he
  · cases he
  · rw [List.mem_singleton] at he
    subst he
    exact ⟨rfl, rfl⟩

/-- Stops are not re-points. -/
theorem stopEvents_not_cm (subs : List SlaveRec) :
    ∀ e ∈ stopEvents subs, isChangeMasterEv e = false := by
  intro e he
  unfold stopEvents at he
  rw [List.mem_filterMap] at he
  obtain ⟨s, _, heq⟩ := he
  split at heq
  · cases heq; rfl
  · cases heq

/-- Re-points are not stops. -/
theorem cmEvents_not_stop (subs : List SlaveRec) :
    ∀ e ∈ cmEvents subs, isStopSlaveEv e = false := by
  intro e he
  unfold cmEvents at he
  rw [List.mem_filterMap] at he
  obtain ⟨s, _, heq⟩ := he
  split at heq
  · cases heq; rfl
  · cases heq

/-- Starts are not stops. -/
theorem startEvents_not_stop (subs : List SlaveRec) :
    ∀ e ∈ startEvents subs, isStopSlaveEv e = false := by
  intro e he
  unfold startEvents at he
  rw [List.mem_filterMap] at he
  obtain ⟨s, _, heq⟩ := he
  split at heq
  · cases heq; rfl
  · cases heq

/-- The pre-fence segment contains no re-point. -/
theorem switchoverPreTrace_not_cm (top : Topo) (cand : SlaveRec) :
    ∀ e ∈ switchoverPreTrace top cand, isChangeMasterEv e = false := by
  intro e he
  unfold switchoverPreTrace at he
  simp only [List.mem_append] at he
  rcases he with (he | he) | he
  · split at he
    · rw [List.mem_singleton] at he; subst he; rfl
    · cases he
  · rw [List.mem_singleton] at he; subst he; rfl
  · exact (scriptEvents_no_cm_no_stop top.beforeScript e he).1

/-- Everything up to and including the role swap contains no re-point. -/
theorem switchoverPreSwapTrace_not_cm (top : Topo) (st : TopState) (mn : MainRec)
    (cand : SlaveRec) :
    ∀ e ∈ switchoverPreSwapTrace top st mn cand, isChangeMasterEv e = false := by
  intro e he
  unfold switchoverPreSwapTrace at he
  simp only [List.mem_append] at he
  rcases he with ((((he | he) | he) | he) | he) | he
  · exact switchoverPreTrace_not_cm top cand e he
  · unfold fenceEvents at he
    rcases List.mem_pair.mp he with rfl | rfl <;> rfl
  · exact stopEvents_not_cm st.subs e he
  · unfold unfenceEvents at he
    rcases List.mem_pair.mp he with rfl | rfl <;> rfl
  · unfold demoteEvents at he
    split at he
    · rw [List.mem_singleton] at he; subst he; rfl
    · cases he
  · rw [List.mem_singleton] at he; subst he; rfl

/-- Everything after the role swap contains no stop. -/
theorem switchoverPostSwapTrace_not_stop (top : Topo) (st : TopState) (mn : MainRec)
    (cand : SlaveRec) :
    ∀ e ∈ switchoverPostSwapTrace top st mn cand, isStopSlaveEv e = false := by
  intro e he
  unfold switchoverPostSwapTrace at he
  simp only [List.mem_append] at he
  rcases he with ((he | he) | he) | he
  · rw [List.mem_singleton] at he; subst he; rfl
  · exact cmEvents_not_stop _ e he
  · exact startEvents_not_stop _ e he
  · exact (scriptEvents_no_cm_no_stop top.afterScript e he).2

/-- The switchover trace always splits into a re-point-free prefix and a
stop-free suffix, with the role swap in the prefix whenever the suffix holds
a re-point. -/
theorem switchover_trace_split (top : Topo) (st : TopState) (cand : SlaveRec) :
    ∃ P Q, (switchover top st cand).2.1 = P ++ Q ∧
      (∀ e ∈ P, isChangeMasterEv e = false) ∧
      (∀ e ∈ Q, isStopSlaveEv e = false) ∧
      ((∃ e ∈ Q, isChangeMasterEv e = true) → Event.roleSwap ∈ P) := by
  have hnil : ∀ tr : List Event, (∀ e ∈ tr, isChangeMasterEv e = false) →
      ∃ P Q, tr = P ++ Q ∧ (∀ e ∈ P, isChangeMasterEv e = false) ∧
        (∀ e ∈ Q, isStopSlaveEv e = false) ∧
        ((∃ e ∈ Q, isChangeMasterEv e = true) → Event.roleSwap ∈ P) := by
    intro tr htr
    exact ⟨tr, [], (List.append_nil tr).symm, htr,
      fun e he => absurd he (List.not_mem_nil e),
      fun ⟨e, he, _⟩ => absurd he (List.not_mem_nil e)⟩
  unfold switchover
  split
  · exact hnil [] (by intro e he; cases he)
  · rename_i mn hmn
    repeat' split
    any_goals exact hnil [] (by intro e he; cases he)
    · exact hnil (switchoverPreTrace top cand) (switchoverPreTrace_not_cm top cand)
    · refine hnil (switchoverPreTrace top cand ++ fenceEvents mn) ?_
      intro e he
      rcases List.mem_append.mp he with he | he
      · exact switchoverPreTrace_not_cm top cand e he
      · unfold fenceEvents at he
        rcases List.mem_pair.mp he with rfl | rfl <;> rfl
    · exact ⟨switchoverPreSwapTrace top st mn cand, switchoverPostSwapTrace top st mn cand,
        rfl, switchoverPreSwapTrace_not_cm top st mn cand,
        switchoverPostSwapTrace_not_stop top st mn cand,
        fun _ => by unfold switchoverPreSwapTrace; simp⟩
    · exact ⟨switchoverPreSwapTrace top st mn cand, switchoverPostSwapTrace top st mn cand,
        rfl, switchoverPreSwapTrace_not_cm top st mn cand,
        switchoverPostSwapTrace_not_stop top st mn cand,
        fun _ => by unfold switchoverPreSwapTrace; simp⟩

/-- Pure list fact: with a re-point-free prefix and a stop-free suffix,
every re-point sits after the role swap and after every stop. -/
theorem ordered_of_trace_split (P Q : List Event)
    (hP : ∀ e ∈ P, isChangeMasterEv e = false)
    (hQ : ∀ e ∈ Q, isStopSlaveEv e = false)
    (hsw : (∃ e ∈ Q, isChangeMasterEv e = true) → Event.roleSwap ∈ P)
    (i : Nat) (h : String) (p : Nat)
    (hi : (P ++ Q).get? i = some (Event.changeMaster h p)) :
    (∃ k, k < i ∧ (P ++ Q).get? k = some Event.roleSwap) ∧
    (∀ (j : Nat) (h' : String) (p' : Nat),
      (P ++ Q).get? j = some (Event.stopSlave h' p') → j < i) := by
  have hiP : P.length ≤ i := by
    by_contra hlt
    push_neg at hlt
    rw [List.get?_append hlt] at hi
    have hmem := List.get?_mem hi
    have := hP _ hmem
    simp [isChangeMasterEv] at this
  have hcmQ : (Event.changeMaster h p) ∈ Q := by
    rw [List.get?_append_right hiP] at hi
    exact List.get?_mem hi
  have hswP : Event.roleSwap ∈ P := hsw ⟨_, hcmQ, rfl⟩
  constructor
  · obtain ⟨k, hk⟩ := List.get?_of_mem hswP
    have hklen : k < P.length := by
      rcases List.get?_eq_some.mp hk with ⟨hlen, _⟩
      exact hlen
    refine ⟨k, lt_of_lt_of_le hklen hiP, ?_⟩
    rw [List.get?_append hklen]
    exact hk
  · intro j h' p' hj
    have hjP : j < P.length := by
      by_contra hge
      push_neg at hge
      rw [List.get?_append_right hge] at hj
      have hmem := List.get?_mem hj
      have := hQ _ hmem
      simp [isStopSlaveEv] at this
    exact lt_of_lt_of_le hjP hiP

/-- C3: within one switchover run, whenever a re-point command
(`CHANGE MASTER`) appears at position `i` of the trace of mutating commands,
the role swap appears at an earlier position and every `STOP SLAVE` issued
during the run appears at an earlier position: no replica is re-pointed
before the stop pass and the committed role swap. -/
theorem switchover_repoint_after_stop_and_swap (top : Topo) (st : TopState)
    (cand : SlaveRec) (i : Nat) (h : String) (p : Nat)
    (hi : (switchover top st cand).2.1.get? i = some (Event.changeMaster h p)) :
    (∃ k, k < i ∧ (switchover top st cand).2.1.get? k = some Event.roleSwap) ∧
    (∀ (j : Nat) (h' : String) (p' : Nat),
      (switchover top st cand).2.1.get? j = some (Event.stopSlave h' p') → j < i) := by
  obtain ⟨P, Q, htr, hP, hQ, hsw⟩ := switchover_trace_split top st cand
  rw [htr] at hi ⊢
  exact ordered_of_trace_split P Q hP hQ hsw i h p hi

/-- Registry fixture for the C3 witness: one primary, one replica. -/
def stW3 : TopState :=
  { main := some { host := "m", port := 3306 }, subs := [{ host := "s1", port := 1 }] }

/-- The switchover candidate for the C3 witness. -/
def candW3 : SlaveRec := { host := "c", port := 7 }

/-- Witness for C3: on a concrete successful run the re-point of replica
`s1` sits at position 8 of the trace, after the role swap and after the
stop. -/
theorem switchover_repoint_after_stop_and_swap_witness :
    ((switchover topDefault stW3 candW3).2.1.get? 8 =
      some (Event.changeMaster "s1" 1)) ∧
    ((∃ k, k < 8 ∧ (switchover topDefault stW3 candW3).2.1.get? k =
        some Event.roleSwap) ∧
     (∀ (j : Nat) (h' : String) (p' : Nat),
       (switchover topDefault stW3 candW3).2.1.get? j =
         some (Event.stopSlave h' p') → j < 8)) :=
  ⟨by decide,
   switchover_repoint_after_stop_and_swap topDefault stW3 candW3 8 "s1" 1 (by decide)⟩

/-! ### C5 -/

/-- The fold computing the last (highest) transaction number stays in the
list (or is the seed). -/
theorem foldl_max_mem : ∀ (ts : List Nat) (t0 : Nat),
    ts.foldl Nat.max t0 = t0 ∨ ts.foldl Nat.max t0 ∈ ts := by
  intro ts
  induction ts with
  | nil => intro t0; exact Or.inl rfl
  | cons a ts ih =>
    intro t0
    rw [List.foldl_cons]
    rcases ih (Nat.max t0 a) with h | h
    · have hm : Nat.max t0 a = t0 ∨ Nat.max t0 a = a := max_choice t0 a
      rcases hm with hm | hm
      · exact Or.inl (h.trans hm)
      · exact Or.inr (by rw [h, hm]; exact List.mem_cons_self a ts)
    · exact Or.inr (List.mem_cons_of_mem a h)

/-- The fold computing the last transaction number bounds the seed and every
element. -/
theorem foldl_max_le : ∀ (ts : List Nat) (t0 : Nat),
    t0 ≤ ts.foldl Nat.max t0 ∧ ∀ t ∈ ts, t ≤ ts.foldl Nat.max t0 := by
  intro ts
  induction ts with
  | nil => intro t0; exact ⟨Nat.le_refl t0, fun t ht => absurd ht (List.not_mem_nil t)⟩
  | cons a ts ih =>
    intro t0
    rw [List.foldl_cons]
    obtain ⟨h1, h2⟩ := ih (Nat.max t0 a)
    refine ⟨le_trans (Nat.le_max_left t0 a) h1, ?_⟩
    intro t ht
    rcases List.mem_cons.mp ht with rfl | ht
    · exact le_trans (Nat.le_max_right t0 t) h1
    · exact h2 t ht

/-- Membership in the per-UUID transaction union. -/
theorem mem_gtidTxnsUnion (a b : List Nat) (t : Nat) :
    t ∈ gtidTxnsUnion a b ↔ t ∈ a ∨ t ∈ b := by
  unfold gtidTxnsUnion
  rw [List.mem_append, List.mem_filter]
  constructor
  · rintro (h | ⟨h, _⟩)
    · exact Or.inl h
    · exact Or.inr h
  · rintro (h | h)
    · exact Or.inl h
    · by_cases ha : t ∈ a
      · exact Or.inl ha
      · exact Or.inr ⟨h, by simp [ha]⟩

/-- Unfolding `inAnyComp` over a cons cell. -/
theorem inAnyComp_cons (d : GtidComp) (l : List GtidComp) (u t : Nat) :
    inAnyComp (d :: l) u t = true ↔ (d.uuid = u ∧ t ∈ d.txns) ∨ inAnyComp l u t = true := by
  simp [inAnyComp, List.any_cons]

/-- The dictionary update adds exactly the new component's transactions. -/
theorem inAnyComp_updateByUuid : ∀ (acc : List GtidComp) (c : GtidComp) (u t : Nat),
    inAnyComp (updateByUuid acc c) u t = true ↔
      inAnyComp acc u t = true ∨ (c.uuid = u ∧ t ∈ c.txns) := by
  intro acc
  induction acc with
  | nil =>
    intro c u t
    simp [updateByUuid, inAnyComp]
  | cons d rest ih =>
    intro c u t
    unfold updateByUuid
    split
    · rename_i hdc
      have hdc2 : d.uuid = c.uuid := by simpa using hdc
      rw [inAnyComp_cons, inAnyComp_cons]
      constructor
      · rintro (⟨hu, ht⟩ | h)
        · rcases (mem_gtidTxnsUnion d.txns c.txns t).mp ht with ht | ht
          · exact Or.inl (Or.inl ⟨hu, ht⟩)
          · exact Or.inr ⟨hdc2.symm.trans hu, ht⟩
        · exact Or.inl (Or.inr h)
      · rintro ((⟨hu, ht⟩ | h) | ⟨hu, ht⟩)
        · exact Or.inl ⟨hu, (mem_gtidTxnsUnion d.txns c.txns t).mpr (Or.inl ht)⟩
        · exact Or.inr h
        · exact Or.inl ⟨hdc2.trans hu, (mem_gtidTxnsUnion d.txns c.txns t).mpr (Or.inr ht)⟩
    · rw [inAnyComp_cons, inAnyComp_cons, ih]
      tauto

/-- Folding a whole GTID set into the dictionary adds exactly its
transactions. -/
theorem inAnyComp_foldl_comps : ∀ (gs : List GtidComp) (acc : List GtidComp) (u t : Nat),
    inAnyComp (gs.foldl updateByUuid acc) u t = true ↔
      inAnyComp acc u t = true ∨ inAnyComp gs u t = true := by
  intro gs
  induction gs with
  | nil =>
    intro acc u t
    simp [inAnyComp]
  | cons c gs ih =>
    intro acc u t
    rw [List.foldl_cons, ih, inAnyComp_updateByUuid, inAnyComp_cons]
    tauto

/-- Folding all replicas' sets into the dictionary yields exactly their
union. -/
theorem inAnyComp_foldl_slaves : ∀ (ss : List SlaveRec) (acc : List GtidComp) (u t : Nat),
    inAnyComp (ss.foldl (fun acc s => s.executed.foldl updateByUuid acc) acc) u t = true ↔
      inAnyComp acc u t = true ∨ ∃ s ∈ ss, inAnyComp s.executed u t = true := by
  intro ss
  induction ss with
  | nil =>
    intro acc u t
    simp
  | cons s ss ih =>
    intro acc u t
    rw [List.foldl_cons, ih, inAnyComp_foldl_comps]
    constructor
    · rintro ((h | h) | ⟨s', hs', h⟩)
      · exact Or.inl h
      · exact Or.inr ⟨s, List.mem_cons_self s ss, h⟩
      · exact Or.inr ⟨s', List.mem_cons_of_mem s hs', h⟩
    · rintro (h | ⟨s', hs', h⟩)
      · exact Or.inl (Or.inl h)
      · rcases List.mem_cons.mp hs' with rfl | hs'
        · exact Or.inl (Or.inr h)
        · exact Or.inr ⟨s', hs', h⟩

/-- C5: the consistency checker's synchronization point.  With a primary
configured, it is the singleton GTID set holding the last (highest)
transaction number of the primary's own UUID taken from the primary's
executed set, and the `_check_table_data_sync` skeleton computes it strictly
between the `LOCK TABLES ... READ` and the `UNLOCK TABLES` on the primary;
with no primary configured, it is the per-UUID union of the executed sets of
all active replicas. -/
theorem sync_point_spec :
    (∀ (m : MainRec) (slaves : List SlaveRec) (t0 : Nat) (ts : List Nat),
      compTxns m.gtidExecuted m.uuid = t0 :: ts →
      computeSyncPoint (some m) slaves (some m.uuid) =
          [{ uuid := m.uuid, txns := [ts.foldl Nat.max t0] }] ∧
        ts.foldl Nat.max t0 ∈ compTxns m.gtidExecuted m.uuid ∧
        (∀ t ∈ compTxns m.gtidExecuted m.uuid, t ≤ ts.foldl Nat.max t0)) ∧
    (∀ (slaves : List SlaveRec) (p : Option Nat) (u t : Nat),
      inAnyComp (computeSyncPoint none slaves p) u t = true ↔
        ∃ s ∈ slaves, inAnyComp s.executed u t = true) ∧
    (∀ (m : MainRec) (act : List SlaveRec) (table : String),
      ∃ mid, (checkTableDataSync (some m) act table).1 =
        Event.lockTables m.host m.port :: Event.computeSync :: (mid ++
          [Event.checksum m.host m.port table, Event.unlockTables m.host m.port])) := by
  refine ⟨?_, ?_, ?_⟩
  · intro m slaves t0 ts hcomp
    refine ⟨?_, ?_, ?_⟩
    · unfold computeSyncPoint getLastServerGtid
      dsimp only [Option.getD_some]
      rw [hcomp]
    · rcases foldl_max_mem ts t0 with h | h
      · rw [hcomp, h]; exact List.mem_cons_self t0 ts
      · rw [hcomp]; exact List.mem_cons_of_mem t0 h
    · intro t ht
      rw [hcomp] at ht
      rcases List.mem_cons.mp ht with rfl | ht
      · exact (foldl_max_le ts t).1
      · exact (foldl_max_le ts t0).2 t ht
  · intro slaves p u t
    unfold computeSyncPoint
    rw [inAnyComp_foldl_slaves]
    simp [inAnyComp]
  · intro m act table
    refine ⟨(if act.isEmpty then []
      else act.map fun s => Event.syncUntil s.host s.port), ?_⟩
    simp [checkTableDataSync]

/-- Primary fixture for the C5 witness: three transactions of its own
UUID 2, the highest being 7. -/
def mainW5 : MainRec := { uuid := 2, gtidExecuted := [{ uuid := 2, txns := [3, 7, 5] }] }

/-- Witness for C5 at a concrete primary. -/
theorem sync_point_spec_witness :
    compTxns mainW5.gtidExecuted mainW5.uuid = 3 :: [7, 5] ∧
    (computeSyncPoint (some mainW5) [] (some mainW5.uuid) =
        [{ uuid := mainW5.uuid, txns := [[7, 5].foldl Nat.max 3] }] ∧
      [7, 5].foldl Nat.max 3 ∈ compTxns mainW5.gtidExecuted mainW5.uuid ∧
      (∀ t ∈ compTxns mainW5.gtidExecuted mainW5.uuid, t ≤ [7, 5].foldl Nat.max 3)) :=
  ⟨by decide, sync_point_spec.1 mainW5 [] 3 [7, 5] (by decide)⟩

/-! ### C9 -/

/-- Stable insertion permutes. -/
theorem insertRow_perm (r : AdvRow) : ∀ l : List AdvRow, List.Perm (insertRow r l) (r :: l) := by
  intro l
  induction l with
  | nil => exact List.Perm.refl _
  | cons x xs ih =>
    unfold insertRow
    split
    · exact (List.Perm.cons x ih).trans (List.Perm.swap r x xs)
    · exact List.Perm.refl _

/-- `res.sort()` permutes the advertised rows. -/
theorem sortRows_perm (l : List AdvRow) : List.Perm (sortRows l) l := by
  unfold sortRows
  induction l with
  | nil => exact List.Perm.refl _
  | cons x xs ih =>
    rw [List.foldr_cons]
    exact (insertRow_perm x _).trans (List.Perm.cons x ih)

/-- Every admitted entry of the discovery loop comes from a row with a
non-empty hostname that passed the configuration check. -/
theorem getSubsLoop_sound : ∀ (rows : List AdvRow) (s : String),
    s ∈ (getSubsLoop rows).1 →
    ∃ r ∈ rows, ¬r.hostName = "" ∧ r.checkOk = true ∧ s = mkInfo r := by
  intro rows
  induction rows with
  | nil => intro s hs; cases hs
  | cons r rest ih =>
    intro s hs
    unfold getSubsLoop at hs
    split at hs
    · cases hs
    · rename_i hne
      split at hs
      · rename_i hok
        rcases List.mem_cons.mp hs with rfl | hs
        · exact ⟨r, List.mem_cons_self r rest, by simpa using hne, hok, rfl⟩
        · obtain ⟨r2, hr2, hp⟩ := ih s hs
          exact ⟨r2, List.mem_cons_of_mem r hr2, hp⟩
      · obtain ⟨r2, hr2, hp⟩ := ih s hs
        exact ⟨r2, List.mem_cons_of_mem r hr2, hp⟩

/-- The unregistered-hostname warning fires whenever some advertised row has
an empty hostname. -/
theorem getSubsLoop_flag : ∀ rows : List AdvRow,
    (∃ r ∈ rows, r.hostName = "") → (getSubsLoop rows).2.1 = true := by
  intro rows
  induction rows with
  | nil => rintro ⟨r, hr, _⟩; cases hr
  | cons r rest ih =>
    rintro ⟨r0, hr0, hr0e⟩
    unfold getSubsLoop
    split
    · rfl
    · rename_i hne
      rcases List.mem_cons.mp hr0 with rfl | hr0
      · exact absurd (by simpa using hr0e) (by simpa using hne)
      · split
        · exact ih ⟨r0, hr0, hr0e⟩
        · exact ih ⟨r0, hr0, hr0e⟩

/-- C9: when the primary's advertised replica list contains an entry with an
empty hostname, `get_subordinates` never admits that entry (every admitted
entry comes from a row with a non-empty hostname passing the checks), the
unregistered-hostname warning is emitted, and the call returns normally
(the function is total — the empty-hostname row is recorded, not raised). -/
theorem discovery_skips_empty_hostname (rows : List AdvRow)
    (hx : ∃ r ∈ rows, r.hostName = "") :
    (∀ s ∈ (getSubordinates rows).1,
      ∃ r ∈ rows, ¬r.hostName = "" ∧ r.checkOk = true ∧ s = mkInfo r) ∧
    (getSubordinates rows).2.1 = true := by
  obtain ⟨r0, hr0, hr0e⟩ := hx
  have hne : rows.isEmpty = false := by
    cases rows with
    | nil => cases hr0
    | cons a l => rfl
  unfold getSubordinates
  rw [hne]
  constructor
  · intro s hs
    simp only [Bool.false_eq_true, if_false] at hs
    obtain ⟨r, hr, hp⟩ := getSubsLoop_sound (sortRows rows) s hs
    exact ⟨r, (sortRows_perm rows).mem_iff.mp hr, hp⟩
  · simp only [Bool.false_eq_true, if_false]
    exact getSubsLoop_flag (sortRows rows)
      ⟨r0, (sortRows_perm rows).mem_iff.mpr hr0, hr0e⟩

/-- The advertised rows for the C9 witness: a valid replica and an
empty-hostname registration. -/
def rowsW9 : List AdvRow :=
  [{ serverId := 2, hostName := "h", port := 4 },
   { serverId := 1, hostName := "", port := 9 }]

/-- Witness for C9 at a concrete advertised list. -/
theorem discovery_skips_empty_hostname_witness :
    (∃ r ∈ rowsW9, r.hostName = "") ∧
    ((∀ s ∈ (getSubordinates rowsW9).1,
       ∃ r ∈ rowsW9, ¬r.hostName = "" ∧ r.checkOk = true ∧ s = mkInfo r) ∧
     (getSubordinates rowsW9).2.1 = true) :=
  ⟨by decide, discovery_skips_empty_hostname rowsW9 (by decide)⟩

end Mut
